import Mathlib

/-
Verification of the disgo-butler mod-mail relay engine.

This file shallowly embeds the relay code of `mod_mail` (the four event
listeners in the source: `guildMessageCreateListener`,
`guildMessageUpdateListener`, `guildMessageDeleteListener`,
`guildMemberTypingStartListener`) together with the shutdown hook of
`Butler.StartAndBlock`.

Modelling choices:
- `snowflake.ID` becomes `Nat`; Go's zero value for a missing map key is `0`.
- The Go maps `ThreadDMs`, `dmMessageIDs`, `threadMessageIDs` become
  association lists with Go map semantics: `mapLookup` (comma-ok lookup),
  `mapIndex` (unguarded indexing, zero value on a miss), `mapInsert`
  (assignment: overwrite the entry for the key, else add it), `mapErase`
  (the builtin `delete`).
- Each listener is a pure function from the REST transport's outcomes
  (a `Rest` oracle), the current `ModMail` state and the inbound event to
  the next state paired with the trace of primitive actions it performed:
  acquiring/releasing the mutex `Mu`, the four REST calls, and error
  logging.  The trace lets us state where the mutex is held relative to
  the network calls and which mirrored calls were issued.
- Message content (embeds, attachment files) is irrelevant to every claim
  and is not modelled; REST calls are recorded with their channel/message
  identifiers only.
-/

namespace DisgoButler

/-- snowflake.ID; the Go zero value is 0. -/
abbrev Snowflake := Nat

/-- association list with Go map semantics over snowflake keys and values. -/
abbrev GoMap := List (Snowflake × Snowflake)

/-- comma-ok lookup `v, ok := m[k]`. -/
def mapLookup : GoMap → Snowflake → Option Snowflake
  | [], _ => none
  | (k', v) :: t, k => if k' = k then some v else mapLookup t k

/-- unguarded indexing `m[k]`: the zero value 0 when the key is absent. -/
def mapIndex (m : GoMap) (k : Snowflake) : Snowflake :=
  (mapLookup m k).getD 0

/-- assignment `m[k] = v`: overwrite the entry for `k` if present, else add it. -/
def mapInsert : GoMap → Snowflake → Snowflake → GoMap
  | [], k, v => [(k, v)]
  | (k', v') :: t, k, v => if k' = k then (k, v) :: t else (k', v') :: mapInsert t k v

/-- builtin `delete(m, k)`: remove the entry for `k` if present. -/
def mapErase : GoMap → Snowflake → GoMap
  | [], _ => []
  | (k', v') :: t, k => if k' = k then t else (k', v') :: mapErase t k

/-- the keys of the map are pairwise distinct (every Go map satisfies this). -/
def NodupKeys (m : GoMap) : Prop :=
  (m.map Prod.fst).Nodup

/-- mutable state of `mod_mail.ModMail` (the mutex `Mu` is modelled in the
action traces, not as data): `ThreadDMs` maps staff-thread channel ids to DM
channel ids, `dmMessageIDs` maps guild message ids to their mirrored DM
message ids, `threadMessageIDs` maps DM message ids to their mirrored thread
message ids. -/
structure ModMail where
  ThreadDMs : GoMap
  dmMessageIDs : GoMap
  threadMessageIDs : GoMap
  deriving Repr, DecidableEq

/-- the fields of `discord.Message` the listeners read. -/
structure Message where
  ID : Snowflake
  WebhookID : Option Snowflake
  deriving Repr, DecidableEq

/-- events.GuildMessageCreate. -/
structure GuildMessageCreate where
  ChannelID : Snowflake
  Message : Message
  deriving Repr, DecidableEq

/-- events.GuildMessageUpdate. -/
structure GuildMessageUpdate where
  ChannelID : Snowflake
  Message : Message
  deriving Repr, DecidableEq

/-- events.GuildMessageDelete carries the deleted message id both as the
event field `MessageID` and inside the (possibly cache-derived) `Message`;
the source reads both, so both are kept. -/
structure GuildMessageDelete where
  ChannelID : Snowflake
  MessageID : Snowflake
  Message : Message
  deriving Repr, DecidableEq

/-- events.GuildMemberTypingStart. -/
structure GuildMemberTypingStart where
  ChannelID : Snowflake
  deriving Repr, DecidableEq

/-- outcomes of the REST transport for this run: `CreateMessage` returns the
created message's id on success and `none` on a transport error; the other
calls report success as `true`. -/
structure Rest where
  CreateMessage : Snowflake → Option Snowflake
  UpdateMessage : Snowflake → Snowflake → Bool
  DeleteMessage : Snowflake → Snowflake → Bool
  SendTyping : Snowflake → Bool

/-- primitive actions a listener performs, in order: mutex operations on
`Mu`, the four REST transport calls (with their id arguments), and error
logging. -/
inductive Action where
  | lock
  | unlock
  | createMessage (channelID : Snowflake)
  | updateMessage (channelID messageID : Snowflake)
  | deleteMessage (channelID messageID : Snowflake)
  | sendTyping (channelID : Snowflake)
  | logError
  deriving Repr, DecidableEq

/-- ModMail.guildMessageCreateListener: returns early on webhook-authored
messages (before taking the lock); otherwise, under `Mu`, looks up the DM
channel for the event's channel, creates the mirrored DM message, and on
success records the guild-message-id to DM-message-id pair in
`dmMessageIDs`.  On a transport error it logs and returns. -/
def guildMessageCreateListener (rest : Rest) (m : ModMail)
    (event : GuildMessageCreate) : ModMail × List Action :=
  if (event.Message.WebhookID).isSome then
    (m, [])
  else
    match mapLookup m.ThreadDMs event.ChannelID with
    | none => (m, [.lock, .unlock])
    | some dmID =>
      match rest.CreateMessage dmID with
      | none => (m, [.lock, .createMessage dmID, .logError, .unlock])
      | some messageID =>
        ({ m with dmMessageIDs := mapInsert m.dmMessageIDs event.Message.ID messageID },
          [.lock, .createMessage dmID, .unlock])

/-- ModMail.guildMessageUpdateListener: under `Mu`, looks up the mirrored DM
message id for the updated message; if found, reads the DM channel id with
an unguarded index into `ThreadDMs` (zero value on a miss) and issues the
mirrored update.  No state is mutated. -/
def guildMessageUpdateListener (rest : Rest) (m : ModMail)
    (event : GuildMessageUpdate) : ModMail × List Action :=
  match mapLookup m.dmMessageIDs event.Message.ID with
  | none => (m, [.lock, .unlock])
  | some dmMessageID =>
    let dmChannelID := mapIndex m.ThreadDMs event.ChannelID
    if rest.UpdateMessage dmChannelID dmMessageID then
      (m, [.lock, .updateMessage dmChannelID dmMessageID, .unlock])
    else
      (m, [.lock, .updateMessage dmChannelID dmMessageID, .logError, .unlock])

/-- ModMail.guildMessageDeleteListener: under `Mu`, looks up the mirrored DM
message id for the deleted message in `dmMessageIDs`; if found, deletes the
`threadMessageIDs` entry keyed by the deleted message's id (before the
transport call, and from the reverse-direction map), reads the DM channel id
with an unguarded index, and issues the mirrored delete.  The `dmMessageIDs`
entry is never removed. -/
def guildMessageDeleteListener (rest : Rest) (m : ModMail)
    (event : GuildMessageDelete) : ModMail × List Action :=
  match mapLookup m.dmMessageIDs event.MessageID with
  | none => (m, [.lock, .unlock])
  | some dmMessageID =>
    let m' := { m with threadMessageIDs := mapErase m.threadMessageIDs event.Message.ID }
    let dmChannelID := mapIndex m'.ThreadDMs event.ChannelID
    if rest.DeleteMessage dmChannelID dmMessageID then
      (m', [.lock, .deleteMessage dmChannelID dmMessageID, .unlock])
    else
      (m', [.lock, .deleteMessage dmChannelID dmMessageID, .logError, .unlock])

/-- ModMail.guildMemberTypingStartListener: under `Mu`, looks up the DM
channel for the event's channel and issues the mirrored typing indicator.
No state is mutated. -/
def guildMemberTypingStartListener (rest : Rest) (m : ModMail)
    (event : GuildMemberTypingStart) : ModMail × List Action :=
  match mapLookup m.ThreadDMs event.ChannelID with
  | none => (m, [.lock, .unlock])
  | some dmChannelID =>
    if rest.SendTyping dmChannelID then
      (m, [.lock, .sendTyping dmChannelID, .unlock])
    else
      (m, [.lock, .sendTyping dmChannelID, .logError, .unlock])

/-- true iff some REST transport call occurs while the mutex is held; the
boolean argument is whether the lock is currently held. -/
def netUnderLock : Bool → List Action → Bool
  | _, [] => false
  | _, Action.lock :: t => netUnderLock true t
  | _, Action.unlock :: t => netUnderLock false t
  | locked, Action.createMessage _ :: t => locked || netUnderLock locked t
  | locked, Action.updateMessage _ _ :: t => locked || netUnderLock locked t
  | locked, Action.deleteMessage _ _ :: t => locked || netUnderLock locked t
  | locked, Action.sendTyping _ :: t => locked || netUnderLock locked t
  | locked, Action.logError :: t => netUnderLock locked t

/-- true iff the action is a mutex operation. -/
def isLockOp : Action → Bool
  | Action.lock => true
  | Action.unlock => true
  | _ => false

/-- the trace is empty, or it is one critical section spanning the whole
body: the lock is taken first, released last, and never touched in between. -/
def SingleLockedSpan (t : List Action) : Prop :=
  t = [] ∨ ∃ mid, t = Action.lock :: (mid ++ [Action.unlock]) ∧
    mid.all (fun a => !isLockOp a)

/-- number of entries of the map whose key is `k`. -/
def keyCount (m : GoMap) (k : Snowflake) : Nat :=
  (m.filter (fun p => p.1 == k)).length

instance (m : GoMap) : Decidable (NodupKeys m) :=
  decidable_of_iff ((m.map Prod.fst).Nodup) Iff.rfl

theorem mapLookup_mapInsert_self (m : GoMap) (k v : Snowflake) :
    mapLookup (mapInsert m k v) k = some v := by
  induction m with
  | nil => simp [mapInsert, mapLookup]
  | cons p t ih =>
    obtain ⟨k', v'⟩ := p
    by_cases h : k' = k
    · simp [mapInsert, mapLookup, h]
    · simp [mapInsert, mapLookup, h, ih]

theorem mapInsert_mapInsert (m : GoMap) (k v₁ v₂ : Snowflake) :
    mapInsert (mapInsert m k v₁) k v₂ = mapInsert m k v₂ := by
  induction m with
  | nil => simp [mapInsert]
  | cons p t ih =>
    obtain ⟨k', v'⟩ := p
    by_cases h : k' = k
    · simp [mapInsert, h]
    · simp [mapInsert, h, ih]

theorem keyCount_eq_zero (m : GoMap) (k : Snowflake)
    (h : k ∉ m.map Prod.fst) : keyCount m k = 0 := by
  induction m with
  | nil => rfl
  | cons p t ih =>
    obtain ⟨k', v'⟩ := p
    simp only [List.map_cons, List.mem_cons] at h
    push_neg at h
    have hk : (k' == k) = false := beq_eq_false_iff_ne.mpr (Ne.symm h.1)
    simp only [keyCount, List.filter_cons, hk]
    exact ih h.2

theorem keyCount_mapInsert (m : GoMap) (k v : Snowflake) (h : NodupKeys m) :
    keyCount (mapInsert m k v) k = 1 := by
  induction m with
  | nil => simp [mapInsert, keyCount]
  | cons p t ih =>
    obtain ⟨k', v'⟩ := p
    rw [NodupKeys, List.map_cons, List.nodup_cons] at h
    by_cases hk : k' = k
    · subst hk
      have h0 : keyCount t k' = 0 := keyCount_eq_zero t k' h.1
      simp only [mapInsert, if_pos rfl, keyCount, List.filter_cons, beq_self_eq_true,
        List.length_cons]
      simpa [keyCount] using h0
    · have hk' : (k' == k) = false := beq_eq_false_iff_ne.mpr hk
      simp only [mapInsert, if_neg hk, keyCount, List.filter_cons, hk']
      exact ih h.2

/-- the `mod_mail.Config` stored inside the butler `Config`: its `Threads`
field persists the thread-channel to DM-channel link map. -/
structure ModMailConfig where
  Threads : GoMap
  deriving Repr, DecidableEq

/-- the butler `Config`, restricted to the field the shutdown hook writes. -/
structure Config where
  ModMail : ModMailConfig
  deriving Repr, DecidableEq

/-- Modelled from the spec: `mod_mail.ModMail.Close` is code of this
repository that is not under src/ (only its caller in `Butler.StartAndBlock`
is).  Spec §4.1 `snapshot()` "returns the full set of active Links for
persistence; does not include MessageLinks", and §4.3 requires a full
snapshot of currently open Links at shutdown, so `Close` returns the full
`ThreadDMs` link map. -/
def ModMail.Close (m : ModMail) : GoMap :=
  m.ThreadDMs

/-- the deferred shutdown hook of `Butler.StartAndBlock`: it assigns
`b.ModMail.Close()` to `b.Config.ModMail.Threads` and hands the resulting
config to `SaveConfig`; the returned value is the config handed over for
persistence. -/
def shutdownSavedConfig (m : ModMail) (cfg : Config) : Config :=
  { cfg with ModMail := { cfg.ModMail with Threads := m.Close } }

/-- Modelled from the spec: the Lifecycle Manager operations `open`/`close`
acting on the Link Store are code of this repository that is not under src/
(src only declares and reads the `ThreadDMs` map they maintain).  Spec §4.1:
"`put(link)`: inserts a Link; fails with `ConflictError` if either endpoint
is already mapped" — `none` models the `ConflictError` outcome. -/
def put (store : GoMap) (staffChannelID userChannelID : Snowflake) :
    Option GoMap :=
  if store.any (fun p => p.1 == staffChannelID || p.2 == userChannelID) then
    none
  else
    some ((staffChannelID, userChannelID) :: store)

/-- Modelled from the spec: spec §4.1 "`remove(link)`: deletes the link". -/
def remove (store : GoMap) (link : Snowflake × Snowflake) : GoMap :=
  store.filter (fun p => p != link)

/-- a `put` or `remove` request against the Link Store. -/
inductive LinkOp where
  | put (staffChannelID userChannelID : Snowflake)
  | remove (link : Snowflake × Snowflake)
  deriving Repr, DecidableEq

/-- applies one operation; a `put` rejected with `ConflictError` leaves the
store unchanged. -/
def applyLinkOp (store : GoMap) : LinkOp → GoMap
  | .put s u => (put store s u).getD store
  | .remove link => remove store link

/-- runs a sequence of operations against the initially empty Link Store. -/
def runLinkOps (ops : List LinkOp) : GoMap :=
  ops.foldl applyLinkOp []

/-- no two links of the store share a staff channel id or a user channel id. -/
def Bijection (store : GoMap) : Prop :=
  store.Pairwise (fun p q => p.1 ≠ q.1 ∧ p.2 ≠ q.2)

theorem bijection_applyLinkOp (store : GoMap) (op : LinkOp)
    (h : Bijection store) : Bijection (applyLinkOp store op) := by
  cases op with
  | put s u =>
    by_cases hc : store.any (fun p => p.1 == s || p.2 == u)
    · simp [applyLinkOp, put, hc, h]
    · have happ : applyLinkOp store (LinkOp.put s u) = (s, u) :: store := by
        simp [applyLinkOp, put, hc]
      simp only [List.any_eq_true, Bool.or_eq_true, beq_iff_eq, not_exists,
        not_and, not_or] at hc
      rw [Bijection, happ]
      refine List.Pairwise.cons ?_ h
      intro q hq
      have hq' := hc q hq
      exact ⟨fun he => hq'.1 he.symm, fun he => hq'.2 he.symm⟩
  | remove link =>
    exact List.Pairwise.sublist (List.filter_sublist store) h

theorem bijection_foldl (ops : List LinkOp) (store : GoMap)
    (h : Bijection store) : Bijection (ops.foldl applyLinkOp store) := by
  induction ops generalizing store with
  | nil => exact h
  | cons op rest ih => exact ih _ (bijection_applyLinkOp store op h)

/-- Claim C5: for every message-created event whose mirrored create call
fails with a transport error, no MessageLink entry is created — the handler
logs and returns, leaving the whole state unchanged. -/
theorem failed_mirror_create_records_no_state (rest : Rest) (m : ModMail)
    (event : GuildMessageCreate) (dmID : Snowflake)
    (h1 : event.Message.WebhookID = none)
    (h2 : mapLookup m.ThreadDMs event.ChannelID = some dmID)
    (h3 : rest.CreateMessage dmID = none) :
    (guildMessageCreateListener rest m event).1 = m := by
  simp [guildMessageCreateListener, h1, h2, h3]

theorem failed_mirror_create_records_no_state_witness :
    ((⟨1, ⟨5, none⟩⟩ : GuildMessageCreate).Message.WebhookID = none) ∧
    (mapLookup (⟨[(1, 2)], [], []⟩ : ModMail).ThreadDMs
      (⟨1, ⟨5, none⟩⟩ : GuildMessageCreate).ChannelID = some 2) ∧
    ((⟨fun _ => none, fun _ _ => true, fun _ _ => true, fun _ => true⟩ :
      Rest).CreateMessage 2 = none) ∧
    (guildMessageCreateListener
      ⟨fun _ => none, fun _ _ => true, fun _ _ => true, fun _ => true⟩
      ⟨[(1, 2)], [], []⟩ ⟨1, ⟨5, none⟩⟩).1 = ⟨[(1, 2)], [], []⟩ :=
  ⟨rfl, rfl, rfl,
    failed_mirror_create_records_no_state
      ⟨fun _ => none, fun _ _ => true, fun _ _ => true, fun _ => true⟩
      ⟨[(1, 2)], [], []⟩ ⟨1, ⟨5, none⟩⟩ 2 rfl rfl rfl⟩

/-- Claim C6: every inbound message-created event authored by a webhook (the
authorship marker of the bridge's own mirrored posts) is ignored before the
lock is even taken: the state is unchanged and no action — in particular no
mirrored create — is performed, preventing echo loops. -/
theorem webhook_message_ignored (rest : Rest) (m : ModMail)
    (event : GuildMessageCreate)
    (h : (event.Message.WebhookID).isSome) :
    guildMessageCreateListener rest m event = (m, []) := by
  simp [guildMessageCreateListener, h]

theorem webhook_message_ignored_witness :
    (((⟨1, ⟨5, some 7⟩⟩ : GuildMessageCreate).Message.WebhookID).isSome) ∧
    guildMessageCreateListener
      ⟨fun _ => some 9, fun _ _ => true, fun _ _ => true, fun _ => true⟩
      ⟨[(1, 2)], [], []⟩ ⟨1, ⟨5, some 7⟩⟩ = (⟨[(1, 2)], [], []⟩, []) :=
  ⟨rfl,
    webhook_message_ignored
      ⟨fun _ => some 9, fun _ _ => true, fun _ _ => true, fun _ => true⟩
      ⟨[(1, 2)], [], []⟩ ⟨1, ⟨5, some 7⟩⟩ rfl⟩

/-- Claim C7: on process shutdown, the full set of currently open Links (the
`ThreadDMs` channel-pair map) is snapshotted by `ModMail.Close` and written
into the config handed to `SaveConfig` for persistence, so no active
conversation mapping is lost. -/
theorem shutdown_snapshot_persists_all_links (m : ModMail) (cfg : Config) :
    (shutdownSavedConfig m cfg).ModMail.Threads = m.ThreadDMs :=
  rfl

/-- Claim C8: for every sequence of `put`/`remove` operations applied to the
initially empty Link Store, the store never holds two links sharing a staff
channel id or sharing a user channel id — the mapping stays a bijection. -/
theorem linkStore_bijection_invariant (ops : List LinkOp) :
    Bijection (runLinkOps ops) :=
  bijection_foldl ops [] List.Pairwise.nil

/-- Claim C9: the MessageLink insert (the Go map assignment
`m.dmMessageIDs[event.Message.ID] = message.ID`, modelled by `mapInsert`) is
idempotent under at-least-once delivery: inserting twice for the same origin
id is the same as inserting once with the later mirror id, the later mirror
id wins on lookup, and exactly one entry for that origin id remains. -/
theorem recordMirror_idempotent_last_write_wins (d : GoMap)
    (k v₁ v₂ : Snowflake) (h : NodupKeys d) :
    mapInsert (mapInsert d k v₁) k v₂ = mapInsert d k v₂ ∧
    mapLookup (mapInsert (mapInsert d k v₁) k v₂) k = some v₂ ∧
    keyCount (mapInsert (mapInsert d k v₁) k v₂) k = 1 :=
  ⟨mapInsert_mapInsert d k v₁ v₂,
    by rw [mapInsert_mapInsert]; exact mapLookup_mapInsert_self d k v₂,
    by rw [mapInsert_mapInsert]; exact keyCount_mapInsert d k v₂ h⟩

theorem recordMirror_idempotent_last_write_wins_witness :
    NodupKeys [(1, 2)] ∧
    (mapInsert (mapInsert [(1, 2)] 3 4) 3 5 = mapInsert [(1, 2)] 3 5 ∧
      mapLookup (mapInsert (mapInsert [(1, 2)] 3 4) 3 5) 3 = some 5 ∧
      keyCount (mapInsert (mapInsert [(1, 2)] 3 4) 3 5) 3 = 1) :=
  ⟨by decide, recordMirror_idempotent_last_write_wins [(1, 2)] 3 4 5 (by decide)⟩

/-- Claim C10: a message-updated event whose message id has a MessageLink but
whose channel id has no entry in `ThreadDMs` is not dropped: the unguarded
index yields the zero value 0, and the handler issues the mirrored update
call with channel id 0. -/
theorem update_without_link_uses_zero_channel (rest : Rest) (m : ModMail)
    (event : GuildMessageUpdate) (dmMessageID : Snowflake)
    (h1 : mapLookup m.dmMessageIDs event.Message.ID = some dmMessageID)
    (h2 : mapLookup m.ThreadDMs event.ChannelID = none) :
    Action.updateMessage 0 dmMessageID ∈ (guildMessageUpdateListener rest m event).2 := by
  rcases Bool.eq_false_or_eq_true (rest.UpdateMessage 0 dmMessageID) with hb | hb <;>
    simp [guildMessageUpdateListener, h1, mapIndex, h2, hb]

theorem update_without_link_uses_zero_channel_witness :
    (mapLookup (⟨[], [(5, 9)], []⟩ : ModMail).dmMessageIDs
      (⟨1, ⟨5, none⟩⟩ : GuildMessageUpdate).Message.ID = some 9) ∧
    (mapLookup (⟨[], [(5, 9)], []⟩ : ModMail).ThreadDMs
      (⟨1, ⟨5, none⟩⟩ : GuildMessageUpdate).ChannelID = none) ∧
    Action.updateMessage 0 9 ∈
      (guildMessageUpdateListener
        ⟨fun _ => none, fun _ _ => true, fun _ _ => true, fun _ => true⟩
        ⟨[], [(5, 9)], []⟩ ⟨1, ⟨5, none⟩⟩).2 :=
  ⟨rfl, rfl,
    update_without_link_uses_zero_channel
      ⟨fun _ => none, fun _ _ => true, fun _ _ => true, fun _ => true⟩
      ⟨[], [(5, 9)], []⟩ ⟨1, ⟨5, none⟩⟩ 9 rfl rfl⟩

/-- Claim C1 (code bug): a failed mirrored delete does not leave the state
untouched.  With `threadMessageIDs` holding an entry keyed by the deleted
message's id, the handler removes that entry before the transport call, so
when `DeleteMessage` fails (the trace shows the attempted call and the
logged error) the entry is already gone from the state. -/
theorem failed_delete_mutates_state_bug :
    (guildMessageDeleteListener
      ⟨fun _ => none, fun _ _ => true, fun _ _ => false, fun _ => true⟩
      ⟨[(1, 2)], [(5, 9)], [(5, 7)]⟩ ⟨1, 5, ⟨5, none⟩⟩).1.threadMessageIDs = [] ∧
    (⟨[(1, 2)], [(5, 9)], [(5, 7)]⟩ : ModMail).threadMessageIDs = [(5, 7)] ∧
    Action.deleteMessage 2 9 ∈
      (guildMessageDeleteListener
        ⟨fun _ => none, fun _ _ => true, fun _ _ => false, fun _ => true⟩
        ⟨[(1, 2)], [(5, 9)], [(5, 7)]⟩ ⟨1, 5, ⟨5, none⟩⟩).2 ∧
    Action.logError ∈
      (guildMessageDeleteListener
        ⟨fun _ => none, fun _ _ => true, fun _ _ => false, fun _ => true⟩
        ⟨[(1, 2)], [(5, 9)], [(5, 7)]⟩ ⟨1, 5, ⟨5, none⟩⟩).2 :=
  ⟨rfl, rfl, by decide, by decide⟩

/-- Claim C3 (code bug): handling a message-deleted event whose id has a
MessageLink issues the mirrored delete but removes neither lookup direction:
`dmMessageIDs` is never touched, and the `delete` on `threadMessageIDs` is
keyed by the thread-side message id rather than the DM-side id, so after a
successful mirrored delete both entries are still present. -/
theorem delete_leaves_messagelink_bug :
    Action.deleteMessage 2 9 ∈
      (guildMessageDeleteListener
        ⟨fun _ => none, fun _ _ => true, fun _ _ => true, fun _ => true⟩
        ⟨[(1, 2)], [(5, 9)], [(9, 5)]⟩ ⟨1, 5, ⟨5, none⟩⟩).2 ∧
    mapLookup
      (guildMessageDeleteListener
        ⟨fun _ => none, fun _ _ => true, fun _ _ => true, fun _ => true⟩
        ⟨[(1, 2)], [(5, 9)], [(9, 5)]⟩ ⟨1, 5, ⟨5, none⟩⟩).1.dmMessageIDs 5 = some 9 ∧
    mapLookup
      (guildMessageDeleteListener
        ⟨fun _ => none, fun _ _ => true, fun _ _ => true, fun _ => true⟩
        ⟨[(1, 2)], [(5, 9)], [(9, 5)]⟩ ⟨1, 5, ⟨5, none⟩⟩).1.threadMessageIDs 9 = some 5 :=
  ⟨by decide, rfl, rfl⟩

/-- Claim C2 counterexample: from a fresh state with the link 1 ↦ 2, a
message with id 5 created in channel 1 is successfully mirrored as DM
message 9, yet the resulting MessageLink is resolvable only from the origin
id 5: the mirror id 9 is found neither as a key of `dmMessageIDs` nor as a
key of `threadMessageIDs`, refuting storage in both lookup directions. -/
theorem create_not_resolvable_from_mirror_counterexample :
    mapLookup
      (guildMessageCreateListener
        ⟨fun _ => some 9, fun _ _ => true, fun _ _ => true, fun _ => true⟩
        ⟨[(1, 2)], [], []⟩ ⟨1, ⟨5, none⟩⟩).1.dmMessageIDs 5 = some 9 ∧
    mapLookup
      (guildMessageCreateListener
        ⟨fun _ => some 9, fun _ _ => true, fun _ _ => true, fun _ => true⟩
        ⟨[(1, 2)], [], []⟩ ⟨1, ⟨5, none⟩⟩).1.dmMessageIDs 9 = none ∧
    mapLookup
      (guildMessageCreateListener
        ⟨fun _ => some 9, fun _ _ => true, fun _ _ => true, fun _ => true⟩
        ⟨[(1, 2)], [], []⟩ ⟨1, ⟨5, none⟩⟩).1.threadMessageIDs 9 = none :=
  ⟨rfl, rfl, rfl⟩

/-- Claim C2 as amended: every message successfully mirrored by the guild
create listener records its MessageLink in the origin-to-mirror direction
only — the mirror id is found under the origin id in `dmMessageIDs`, while
the reverse map `threadMessageIDs` (and the link map) is left unchanged, so
the pair is resolvable from the origin id but not from the mirror id. -/
theorem successful_create_records_forward_only (rest : Rest) (m : ModMail)
    (event : GuildMessageCreate) (dmID mirrorID : Snowflake)
    (h1 : event.Message.WebhookID = none)
    (h2 : mapLookup m.ThreadDMs event.ChannelID = some dmID)
    (h3 : rest.CreateMessage dmID = some mirrorID) :
    mapLookup (guildMessageCreateListener rest m event).1.dmMessageIDs
      event.Message.ID = some mirrorID ∧
    (guildMessageCreateListener rest m event).1.threadMessageIDs =
      m.threadMessageIDs ∧
    (guildMessageCreateListener rest m event).1.ThreadDMs = m.ThreadDMs := by
  simp only [guildMessageCreateListener, h1, Option.isSome_none,
    Bool.false_eq_true, if_false, h2, h3]
  simp [mapLookup_mapInsert_self]

theorem successful_create_records_forward_only_witness :
    ((⟨1, ⟨5, none⟩⟩ : GuildMessageCreate).Message.WebhookID = none) ∧
    (mapLookup (⟨[(1, 2)], [], []⟩ : ModMail).ThreadDMs
      (⟨1, ⟨5, none⟩⟩ : GuildMessageCreate).ChannelID = some 2) ∧
    ((⟨fun _ => some 9, fun _ _ => true, fun _ _ => true, fun _ => true⟩ :
      Rest).CreateMessage 2 = some 9) ∧
    (mapLookup
      (guildMessageCreateListener
        ⟨fun _ => some 9, fun _ _ => true, fun _ _ => true, fun _ => true⟩
        ⟨[(1, 2)], [], []⟩ ⟨1, ⟨5, none⟩⟩).1.dmMessageIDs 5 = some 9 ∧
    (guildMessageCreateListener
        ⟨fun _ => some 9, fun _ _ => true, fun _ _ => true, fun _ => true⟩
        ⟨[(1, 2)], [], []⟩ ⟨1, ⟨5, none⟩⟩).1.threadMessageIDs = [] ∧
    (guildMessageCreateListener
        ⟨fun _ => some 9, fun _ _ => true, fun _ _ => true, fun _ => true⟩
        ⟨[(1, 2)], [], []⟩ ⟨1, ⟨5, none⟩⟩).1.ThreadDMs = [(1, 2)]) :=
  ⟨rfl, rfl, rfl,
    successful_create_records_forward_only
      ⟨fun _ => some 9, fun _ _ => true, fun _ _ => true, fun _ => true⟩
      ⟨[(1, 2)], [], []⟩ ⟨1, ⟨5, none⟩⟩ 2 9 rfl rfl rfl⟩

/-- Claim C4 counterexample: handling a message-created event that is
successfully mirrored performs the `CreateMessage` transport call while the
mutex is held — `netUnderLock` is true on the emitted trace, refuting the
claim that the mirrored call happens outside the lock. -/
theorem transport_call_under_lock_counterexample :
    netUnderLock false
      (guildMessageCreateListener
        ⟨fun _ => some 9, fun _ _ => true, fun _ _ => true, fun _ => true⟩
        ⟨[(1, 2)], [], []⟩ ⟨1, ⟨5, none⟩⟩).2 = true :=
  rfl

/-- Claim C4 as amended: each of the four listeners acquires the mutex `Mu`
once at entry and releases it once at exit (or returns before locking, for
webhook-authored creates): its whole body, the mirrored transport call
included, runs inside this single critical section. -/
theorem handlers_single_critical_section (rest : Rest) (m : ModMail)
    (e₁ : GuildMessageCreate) (e₂ : GuildMessageUpdate)
    (e₃ : GuildMessageDelete) (e₄ : GuildMemberTypingStart) :
    SingleLockedSpan (guildMessageCreateListener rest m e₁).2 ∧
    SingleLockedSpan (guildMessageUpdateListener rest m e₂).2 ∧
    SingleLockedSpan (guildMessageDeleteListener rest m e₃).2 ∧
    SingleLockedSpan (guildMemberTypingStartListener rest m e₄).2 := by
  refine ⟨?_, ?_, ?_, ?_⟩
  · unfold guildMessageCreateListener
    split
    · exact Or.inl rfl
    · split
      · exact Or.inr ⟨[], rfl, rfl⟩
      · split
        · exact Or.inr ⟨[Action.createMessage _, Action.logError], rfl, rfl⟩
        · exact Or.inr ⟨[Action.createMessage _], rfl, rfl⟩
  · unfold guildMessageUpdateListener
    split
    · exact Or.inr ⟨[], rfl, rfl⟩
    · dsimp only
      split
      · exact Or.inr ⟨[Action.updateMessage _ _], rfl, rfl⟩
      · exact Or.inr ⟨[Action.updateMessage _ _, Action.logError], rfl, rfl⟩
  · unfold guildMessageDeleteListener
    split
    · exact Or.inr ⟨[], rfl, rfl⟩
    · dsimp only
      split
      · exact Or.inr ⟨[Action.deleteMessage _ _], rfl, rfl⟩
      · exact Or.inr ⟨[Action.deleteMessage _ _, Action.logError], rfl, rfl⟩
  · unfold guildMemberTypingStartListener
    split
    · exact Or.inr ⟨[], rfl, rfl⟩
    · split
      · exact Or.inr ⟨[Action.sendTyping _], rfl, rfl⟩
      · exact Or.inr ⟨[Action.sendTyping _, Action.logError], rfl, rfl⟩

end DisgoButler
